import Mathlib

/-!
Verification of the adonis-ally OAuth2 driver layer (LinkedIn, Threads,
TikTok drivers) against its natural-language specification.

The drivers are embedded shallowly: each driver method becomes a pure Lean
function; the HTTP transport becomes an explicit record of oracle
functions; the list of outbound HTTP calls a method performs is returned
as an explicit trace, so that properties of the form "no HTTP call is
attempted before this failure" become statements about the trace.
JavaScript truthiness of strings (undefined and the empty string are
falsy) is modelled explicitly, and a JavaScript TypeError raised by a
property access on undefined or null is modelled as an error value.
-/

/-- Truthiness of an optional string value as in JavaScript: `undefined`
and the empty string are falsy, every other string is truthy. -/
def jsOptTruthy (o : Option String) : Bool :=
  match o with
  | none => false
  | some s => decide (s ≠ "")

/-- Query parameters handed to getUser after the provider redirects back,
from src/src/Drivers/LinkedIn.js getUser and the Threads/TikTok getUser:
code, state and the provider error fields are all optional strings. -/
structure CallbackParams where
  code : Option String
  state : Option String
  error : Option String
  error_description : Option String
deriving DecidableEq

/-- Errors a driver call can surface: the two OAuthException kinds thrown
in getUser (tokenExchangeException and invalidState), and a raw
JavaScript TypeError from a property access on undefined or null. -/
inductive AllyError
  | tokenExchange (message : String)
  | invalidState
  | typeError
deriving DecidableEq

/-- One outbound HTTP call, recorded in the trace a driver method
returns: the code-for-token exchange, the Threads long-lived-token
exchange, the profile fetch and the LinkedIn email fetch, each keyed by
the credential it is performed with. -/
inductive HttpCall
  | tokenExchange (code : String)
  | longLivedExchange (token : String)
  | profileFetch (token : String)
  | emailFetch (token : String)
deriving DecidableEq

/-- Token bundle attached to a normalized user by AllyUser.setToken, per
the NormalizedUser record of the spec (section 3). -/
structure TokenBundle where
  accessToken : Option String
  refreshToken : Option String
  refreshTokenExpiry : Option Int
  tokenExpiry : Option Int
deriving DecidableEq

/-- Extra token information the Threads driver attaches to the user for
database storage (user.tokenInfo in the Threads driver). -/
structure TokenInfo where
  expiresIn : Option Int
  expiresAt : Option Int
  tokenType : String
deriving DecidableEq

/-- Modelled from the spec: the AllyUser class itself is not under src
(only the drivers are); the spec describes the NormalizedUser record it
builds (section 3). setOriginal stores the raw profile, setFields stores
its positional arguments, setToken stores the token bundle. Because the
positional meaning of the setFields arguments is fixed by the missing
AllyUser class, the arguments are kept as the positional list each call
site passes, unchanged. -/
structure AllyUser (α : Type) where
  original : α
  fields : List (Option String)
  token : TokenBundle
  tokenInfo : Option TokenInfo
deriving DecidableEq

/-- State-validation guard shared verbatim by LinkedIn, Threads and
TikTok getUser: the JavaScript test `state && originalState !== state`,
where state is the provider-returned state parameter and originalState
is the caller-supplied expected value. -/
def stateCheckFails (stateParam originalState : Option String) : Bool :=
  jsOptTruthy stateParam && decide (originalState ≠ stateParam)

namespace LinkedIn

/-- Localized name object of the LinkedIn profile response: firstName and
lastName each carry a localized table; the table itself may be absent,
in which case Object.keys on it raises a TypeError. Entries are keyed
strings in object order. -/
structure LocalizedName where
  localized : Option (List (String × String))
deriving DecidableEq

/-- Raw LinkedIn profile body as consumed by _buildAllyUser: id is read
directly (absent is fine), firstName and lastName are dereferenced
through their localized tables. -/
structure Profile where
  id : Option String
  firstName : Option LocalizedName
  lastName : Option LocalizedName
deriving DecidableEq

/-- The handle object nested in an email element under the key with the
tilde; its emailAddress leaf is optional and read through a guarded
conjunction, so a missing leaf yields undefined, not an error. -/
structure EmailHandle where
  emailAddress : Option String
deriving DecidableEq

/-- One element of the LinkedIn email resource. -/
structure EmailElement where
  type : String
  handle : Option EmailHandle
deriving DecidableEq

/-- The LinkedIn email resource body; elements may be absent, in which
case calling find on it raises a TypeError. -/
structure EmailResource where
  elements : Option (List EmailElement)
deriving DecidableEq

/-- Access-token response as consumed by the LinkedIn _buildAllyUser:
accessToken and refreshToken read directly, and the lodash safe lookup
of result.expires_in which yields undefined when absent. -/
structure TokenResp where
  accessToken : String
  refreshToken : Option String
  result_expires_in : Option Int
deriving DecidableEq

/-- Transport oracles for the three HTTP calls the LinkedIn driver
performs: code-for-token exchange, profile fetch and email fetch. -/
structure Transport where
  getAccessToken : String → TokenResp
  getUserProfile : String → Profile
  getUserEmail : String → EmailResource

/-- parseRedirectError of the LinkedIn driver: the error_description
field when truthy, otherwise the literal fallback string. -/
def parseRedirectError (qp : CallbackParams) : String :=
  match qp.error_description with
  | some s => if s = "" then "Oauth failed during redirect" else s
  | none => "Oauth failed during redirect"

/-- _buildAllyUser of the LinkedIn driver, with JavaScript evaluation
order: the email resource and its elements are dereferenced first (a
TypeError when the resource or its elements are missing), then inside
setFields the firstName and lastName localized tables are dereferenced
(a TypeError when either object or its table is missing); the first
localized variant is picked; the email leaf is read through a guarded
chain; the token bundle truthiness-tests expires before converting. -/
def buildAllyUser (userProfile : Profile) (email : Option EmailResource)
    (resp : TokenResp) : Except AllyError (AllyUser Profile) :=
  match email with
  | none => .error .typeError
  | some e =>
    match e.elements with
    | none => .error .typeError
    | some els =>
      let emailElement := els.find? (fun el => el.type = "EMAIL")
      match userProfile.firstName with
      | none => .error .typeError
      | some fn =>
        match fn.localized with
        | none => .error .typeError
        | some fl =>
          match userProfile.lastName with
          | none => .error .typeError
          | some ln =>
            match ln.localized with
            | none => .error .typeError
            | some ll =>
              .ok
                { original := userProfile
                  fields :=
                    [userProfile.id,
                     fl.head?.map Prod.snd,
                     ll.head?.map Prod.snd,
                     emailElement.bind (fun el => el.handle.bind (fun h => h.emailAddress)),
                     none,
                     none]
                  token :=
                    { accessToken := some resp.accessToken
                      refreshToken := resp.refreshToken
                      refreshTokenExpiry := none
                      tokenExpiry :=
                        match resp.result_expires_in with
                        | some v => if v = 0 then none else some v
                        | none => none }
                  tokenInfo := none }

/-- getUser of the LinkedIn driver: missing-code check, state check,
code-for-token exchange, profile fetch, email fetch, then the user
build; the second component is the trace of outbound HTTP calls. -/
def getUser (qp : CallbackParams) (originalState : Option String)
    (t : Transport) : Except AllyError (AllyUser Profile) × List HttpCall :=
  match qp.code with
  | none => (.error (.tokenExchange (parseRedirectError qp)), [])
  | some c =>
    if c = "" then (.error (.tokenExchange (parseRedirectError qp)), [])
    else if stateCheckFails qp.state originalState then (.error .invalidState, [])
    else
      let resp := t.getAccessToken c
      let profile := t.getUserProfile resp.accessToken
      let email := t.getUserEmail resp.accessToken
      (buildAllyUser profile (some email) resp,
       [.tokenExchange c, .profileFetch resp.accessToken, .emailFetch resp.accessToken])

/-- getUserByToken of the LinkedIn driver: fetches the profile with the
given token, then builds the user passing null for the email resource. -/
def getUserByToken (accessToken : String) (t : Transport) :
    Except AllyError (AllyUser Profile) × List HttpCall :=
  let profile := t.getUserProfile accessToken
  (buildAllyUser profile none
     { accessToken := accessToken, refreshToken := none, result_expires_in := none },
   [.profileFetch accessToken])

end LinkedIn

namespace Threads

/-- Short-lived access-token response of the Threads code-for-token
exchange, as consumed by getUser: only its accessToken is read. -/
structure ShortResp where
  accessToken : String
deriving DecidableEq

/-- Body of the Threads long-lived-token exchange response: the driver
reads access_token, token_type and expires_in out of it. -/
structure LongBody where
  access_token : String
  token_type : Option String
  expires_in : Int
deriving DecidableEq

/-- Access-token record flowing into the Threads _buildAllyUser: the
record built by _exchangeForLongLivedToken carries all fields, while the
record getUserByToken builds carries only the access token. -/
structure TokenResp where
  accessToken : String
  expiresIn : Option Int
  expiresAt : Option Int
  tokenType : Option String
deriving DecidableEq

/-- Raw Threads profile body fields read by _buildAllyUser. -/
structure Profile where
  id : Option String
  username : Option String
  name : Option String
  threads_profile_picture_url : Option String
deriving DecidableEq

/-- Transport oracles for the Threads driver: code-for-token exchange,
long-lived-token exchange, profile fetch, and the clock used by
Date.now when computing expiresAt (milliseconds). -/
structure Transport where
  getAccessToken : String → ShortResp
  exchangeLong : String → LongBody
  getUserProfile : String → Profile
  now : Int

/-- parseRedirectError of the Threads driver: the error field when
truthy, otherwise the literal fallback string. -/
def parseRedirectError (qp : CallbackParams) : String :=
  match qp.error with
  | some s => if s = "" then "Oauth failed during redirect" else s
  | none => "Oauth failed during redirect"

/-- _exchangeForLongLivedToken of the Threads driver: one HTTP call to
the long-lived exchange endpoint with the short-lived token, repackaged
with expiresAt computed from the clock in milliseconds. -/
def exchangeForLongLivedToken (t : Transport) (shortLivedToken : String) : TokenResp :=
  let body := t.exchangeLong shortLivedToken
  { accessToken := body.access_token
    tokenType := body.token_type
    expiresIn := some body.expires_in
    expiresAt := some (t.now + body.expires_in * 1000) }

/-- shouldRefreshToken of the Threads driver: refresh when the expiry is
at most one day away but still in the future; times in milliseconds,
with the call-time clock value passed explicitly as now. -/
def shouldRefreshToken (expiresAt now : Int) : Bool :=
  decide (expiresAt ≤ now + 24 * 60 * 60 * 1000) && decide (expiresAt > now)

/-- _buildAllyUser of the Threads driver: direct field reads from the
profile (absent fields flow through as absent values), the token bundle
with the access token and the truthiness-tested expiresIn, plus the
tokenInfo record attached for database storage. -/
def buildAllyUser (userProfile : Profile) (resp : TokenResp) : AllyUser Profile :=
  { original := userProfile
    fields :=
      [userProfile.id, userProfile.username, none, userProfile.name,
       userProfile.threads_profile_picture_url]
    token :=
      { accessToken := some resp.accessToken
        refreshToken := none
        refreshTokenExpiry := none
        tokenExpiry :=
          match resp.expiresIn with
          | some v => if v = 0 then none else some v
          | none => none }
    tokenInfo := some
      { expiresIn := resp.expiresIn
        expiresAt := resp.expiresAt
        tokenType :=
          match resp.tokenType with
          | some tt => if tt = "" then "bearer" else tt
          | none => "bearer" } }

/-- getUser of the Threads driver: missing-code check, state check,
code-for-token exchange yielding a short-lived token, exchange of that
token for a long-lived token, profile fetch authenticated with the
long-lived token, then the user build from the long-lived record. -/
def getUser (qp : CallbackParams) (originalState : Option String)
    (t : Transport) : Except AllyError (AllyUser Profile) × List HttpCall :=
  match qp.code with
  | none => (.error (.tokenExchange (parseRedirectError qp)), [])
  | some c =>
    if c = "" then (.error (.tokenExchange (parseRedirectError qp)), [])
    else if stateCheckFails qp.state originalState then (.error .invalidState, [])
    else
      let short := t.getAccessToken c
      let long := exchangeForLongLivedToken t short.accessToken
      let profile := t.getUserProfile long.accessToken
      (.ok (buildAllyUser profile long),
       [.tokenExchange c, .longLivedExchange short.accessToken,
        .profileFetch long.accessToken])

end Threads

/-- Per-provider static configuration resolved at driver construction
(clientId, clientSecret, redirectUri and the extra redirect options). -/
structure DriverConfig where
  clientId : String
  clientSecret : String
  redirectUri : String
  options : String → Option String

/-- Redirect options map of a driver, a JavaScript object keyed by
parameter name; the driver stores one such object in
_redirectUriOptions at construction. -/
def Opts : Type := String → Option String

/-- Object.assign of a single key: Lean rendering of merging one
key/value pair into a JavaScript object, overwriting the key. -/
def updMap (m : Opts) (k v : String) : Opts :=
  fun x => if x = k then some v else m x

/-- Redirect options as built by the driver constructor: the merge of
the fixed response_type entry with the configured options, where a
configured entry wins. -/
def initOpts (cfg : DriverConfig) : Opts :=
  fun k =>
    match cfg.options k with
    | some v => some v
    | none => if k = "response_type" then some "code" else none

/-- Redirect URL produced for the authorization endpoint: its base and
its query-parameter map. -/
structure RedirectUrl where
  base : String
  params : String → Option String

/-- Default query parameters of the authorization redirect. -/
def oauthDefaults (clientId redirectUri scopeJoined : String) : String → Option String :=
  fun k =>
    if k = "client_id" then some clientId
    else if k = "redirect_uri" then some redirectUri
    else if k = "response_type" then some "code"
    else if k = "scope" then some scopeJoined
    else none

/-- Modelled from the spec: OAuth2Scheme.getUrl, the flow-engine URL
builder the drivers delegate to, is not under src. Per the spec
(section 4.1) the query parameters are client_id, redirect_uri,
response_type=code and the scopes joined with the provider separator;
extraOptions are merged in with caller-supplied values winning every
collision except response_type, which the engine fixes to code. -/
def getUrl (authorizeUrl clientId redirectUri : String) (scopes : List String)
    (sep : String) (extraOptions : Opts) : RedirectUrl :=
  { base := authorizeUrl
    params := fun k =>
      if k = "response_type" then some "code"
      else
        match extraOptions k with
        | some v => some v
        | none => oauthDefaults clientId redirectUri (String.intercalate sep scopes) k }

/-- URL assembly of the LinkedIn driver: authorize endpoint, space as
scope separator, default scopes. -/
def LinkedIn.mkUrl (cfg : DriverConfig) (o : Opts) : RedirectUrl :=
  getUrl "https://www.linkedin.com/oauth/v2/authorization" cfg.clientId cfg.redirectUri
    ["r_liteprofile", "r_emailaddress"] " " o

/-- getRedirectUrl of the LinkedIn driver: when the state argument is
truthy, Object.assign merges it into the stored redirect options in
place; the updated options are both used for this URL and kept as the
driver's stored options, returned here as the second component. -/
def LinkedIn.getRedirectUrl (cfg : DriverConfig) (state : Option String)
    (opts : Opts) : RedirectUrl × Opts :=
  match state with
  | some s =>
    if s = "" then (LinkedIn.mkUrl cfg opts, opts)
    else
      let o := updMap opts "state" s
      (LinkedIn.mkUrl cfg o, o)
  | none => (LinkedIn.mkUrl cfg opts, opts)

/-- URL assembly of the TikTok driver: authorize endpoint, comma scope
separator, default scopes. -/
def TikTok.mkUrl (cfg : DriverConfig) (o : Opts) : RedirectUrl :=
  getUrl "https://www.tiktok.com/v2/auth/authorize" cfg.clientId cfg.redirectUri
    ["user.info.basic", "user.info.username"] "," o

/-- getRedirectUrl of the TikTok driver: when the state argument is
truthy, Object.assign merges the state and the client_key entry (set to
the configured clientId) into the stored redirect options in place. -/
def TikTok.getRedirectUrl (cfg : DriverConfig) (state : Option String)
    (opts : Opts) : RedirectUrl × Opts :=
  match state with
  | some s =>
    if s = "" then (TikTok.mkUrl cfg opts, opts)
    else
      let o := updMap (updMap opts "state" s) "client_key" cfg.clientId
      (TikTok.mkUrl cfg o, o)
  | none => (TikTok.mkUrl cfg opts, opts)

/-- URL assembly of the Threads driver: authorize endpoint, comma scope
separator, default scope. -/
def Threads.mkUrl (cfg : DriverConfig) (o : Opts) : RedirectUrl :=
  getUrl "https://threads.net/oauth/authorize" cfg.clientId cfg.redirectUri
    ["threads_basic"] "," o

/-- getRedirectUrl of the Threads driver, identical in shape to the
TikTok one: a truthy state argument merges state and client_key into
the stored redirect options in place. -/
def Threads.getRedirectUrl (cfg : DriverConfig) (state : Option String)
    (opts : Opts) : RedirectUrl × Opts :=
  match state with
  | some s =>
    if s = "" then (Threads.mkUrl cfg opts, opts)
    else
      let o := updMap (updMap opts "state" s) "client_key" cfg.clientId
      (Threads.mkUrl cfg o, o)
  | none => (Threads.mkUrl cfg opts, opts)

/-- Concrete LinkedIn profile fixture with every intermediate object
present, used by witnesses and counterexamples. -/
def liProfileOk : LinkedIn.Profile :=
  { id := some "42"
    firstName := some { localized := some [("en_US", "Alice")] }
    lastName := some { localized := some [("en_US", "Liddell")] } }

/-- Concrete LinkedIn profile fixture whose optional firstName object is
missing while the mandatory id is present. -/
def liProfileNoFirst : LinkedIn.Profile :=
  { id := some "42"
    firstName := none
    lastName := some { localized := some [("en_US", "Liddell")] } }

/-- Concrete LinkedIn email-resource fixture with one primary entry. -/
def liEmailOk : LinkedIn.EmailResource :=
  { elements := some [{ type := "EMAIL", handle := some { emailAddress := some "alice@example.com" } }] }

/-- Concrete LinkedIn token-response fixture. -/
def liTokenOk : LinkedIn.TokenResp :=
  { accessToken := "T", refreshToken := some "R", result_expires_in := some 3600 }

/-- Concrete LinkedIn transport fixture returning the fixtures above on
every request. -/
def liTransportOk : LinkedIn.Transport :=
  { getAccessToken := fun _ => liTokenOk
    getUserProfile := fun _ => liProfileOk
    getUserEmail := fun _ => liEmailOk }

/-- Concrete Threads transport fixture: the code exchange yields the
short-lived token SHORT, the long-lived exchange yields LONG, and the
profile fetch returns a fixed profile. -/
def thTransportOk : Threads.Transport :=
  { getAccessToken := fun _ => { accessToken := "SHORT" }
    exchangeLong := fun _ =>
      { access_token := "LONG", token_type := some "bearer", expires_in := 5184000 }
    getUserProfile := fun _ =>
      { id := some "7", username := some "alice", name := some "Alice", threads_profile_picture_url := none }
    now := 0 }

/-- Concrete driver configuration fixture with no configured extra
options. -/
def cfgFix : DriverConfig :=
  { clientId := "CID", clientSecret := "SEC", redirectUri := "https://app.example/cb"
    options := fun _ => none }

/-- Redirect options of a freshly constructed driver under cfgFix. -/
def optsFix : Opts := initOpts cfgFix

/-- Unfolding of the shared state guard into its two conditions. -/
theorem stateCheckFails_iff (stateParam originalState : Option String) :
    stateCheckFails stateParam originalState = true ↔
      jsOptTruthy stateParam = true ∧ originalState ≠ stateParam := by
  simp [stateCheckFails]

/-- The LinkedIn user build never produces the invalid-state error; its
only error value is the raw type error. -/
theorem LinkedIn.buildAllyUser_ne_invalidState (p : LinkedIn.Profile)
    (e : Option LinkedIn.EmailResource) (r : LinkedIn.TokenResp) :
    LinkedIn.buildAllyUser p e r ≠ .error .invalidState := by
  unfold LinkedIn.buildAllyUser
  repeat' split
  all_goals intro h
  all_goals simp at h

/-- Overwriting the same key with the same value twice equals doing it
once. -/
theorem updMap_idem (m : Opts) (k v : String) :
    updMap (updMap m k v) k v = updMap m k v := by
  funext x
  by_cases h : x = k <;> simp [updMap, h]

/-- A falsy code (absent or empty) makes the LinkedIn getUser return
the token-exchange error with the parsed redirect message and an empty
trace, independently of the transport. -/
theorem linkedInGetUserMissingCode (qp : CallbackParams) (orig : Option String)
    (t : LinkedIn.Transport) (h : jsOptTruthy qp.code = false) :
    LinkedIn.getUser qp orig t =
      (.error (.tokenExchange (LinkedIn.parseRedirectError qp)), []) := by
  rcases hc : qp.code with _ | c
  · simp [LinkedIn.getUser, hc]
  · have hce : c = "" := by
      by_contra hne
      simp [jsOptTruthy, hc, hne] at h
    simp [LinkedIn.getUser, hc, hce]

/-- A falsy code (absent or empty) makes the Threads getUser return the
token-exchange error with the parsed redirect message and an empty
trace, independently of the transport. -/
theorem threadsGetUserMissingCode (qp : CallbackParams) (orig : Option String)
    (u : Threads.Transport) (h : jsOptTruthy qp.code = false) :
    Threads.getUser qp orig u =
      (.error (.tokenExchange (Threads.parseRedirectError qp)), []) := by
  rcases hc : qp.code with _ | c
  · simp [Threads.getUser, hc]
  · have hce : c = "" := by
      by_contra hne
      simp [jsOptTruthy, hc, hne] at h
    simp [Threads.getUser, hc, hce]

/-- C1, counterexample: with no caller-supplied original state (the
expected value is absent) and a provider-returned state, the LinkedIn
getUser fails with the invalid-state error, where the claim says the
check passes whenever the expected state is empty or absent. -/
theorem claim1_counterexample :
    (LinkedIn.getUser
      { code := some "c", state := some "x", error := none, error_description := none }
      none liTransportOk).1 = .error .invalidState := rfl

/-- C1, amended: state validation in getUser fails if and only if the
provider-returned state parameter is non-empty and the caller-supplied
original state differs from it; when the returned state is empty or
absent the check is skipped regardless of the original state, and a
non-empty returned state fails against an absent original state. Stated
for the LinkedIn and Threads drivers under a present, non-empty code. -/
theorem claim1_state_check_iff
    (qp : CallbackParams) (orig : Option String) (t : LinkedIn.Transport)
    (u : Threads.Transport) (c : String)
    (hcode : qp.code = some c) (hc : c ≠ "") :
    (((LinkedIn.getUser qp orig t).1 = .error .invalidState) ↔
      (jsOptTruthy qp.state = true ∧ orig ≠ qp.state)) ∧
    (((Threads.getUser qp orig u).1 = .error .invalidState) ↔
      (jsOptTruthy qp.state = true ∧ orig ≠ qp.state)) := by
  rw [← stateCheckFails_iff qp.state orig]
  constructor
  · by_cases hs : stateCheckFails qp.state orig
    · simp [LinkedIn.getUser, hcode, hc, hs]
    · simp [LinkedIn.getUser, hcode, hc, hs,
        LinkedIn.buildAllyUser_ne_invalidState]
  · by_cases hs : stateCheckFails qp.state orig
    · simp [Threads.getUser, hcode, hc, hs]
    · simp [Threads.getUser, hcode, hc, hs]

/-- C1, witness: the amended theorem applied at a concrete callback with
code c, returned state x, absent original state, and the concrete
transports. -/
theorem claim1_state_check_iff_witness :
    (((LinkedIn.getUser
        { code := some "c", state := some "x", error := none, error_description := none }
        none liTransportOk).1 = .error .invalidState) ↔
      (jsOptTruthy (some "x") = true ∧ (none : Option String) ≠ some "x")) ∧
    (((Threads.getUser
        { code := some "c", state := some "x", error := none, error_description := none }
        none thTransportOk).1 = .error .invalidState) ↔
      (jsOptTruthy (some "x") = true ∧ (none : Option String) ≠ some "x")) :=
  claim1_state_check_iff
    { code := some "c", state := some "x", error := none, error_description := none }
    none liTransportOk thTransportOk "c" rfl (by decide)

/-- C2, counterexample: the generic fallback message the code throws for
a callback with no code and no error fields is the literal
Oauth failed during redirect with a lowercase a, which differs from the
message the claim states. -/
theorem claim2_counterexample :
    (LinkedIn.getUser
      { code := none, state := none, error := none, error_description := none }
      none liTransportOk).1 =
        .error (.tokenExchange "Oauth failed during redirect") ∧
    "Oauth failed during redirect" ≠ "OAuth failed during redirect" :=
  ⟨rfl, by decide⟩

/-- C2, amended: for every callback-parameter object whose code is
absent or empty, getUser fails with the token-exchange error before any
HTTP call (the trace is empty and the result does not depend on the
transport, so a second call on the same input yields the same error
with no side effects); the message is the provider error field of the
driver when that field is non-empty (error_description for LinkedIn,
error for Threads), else the literal Oauth failed during redirect. -/
theorem claim2_missing_code_token_error
    (qp : CallbackParams) (orig : Option String)
    (t t2 : LinkedIn.Transport) (u u2 : Threads.Transport)
    (hcode : jsOptTruthy qp.code = false) :
    LinkedIn.getUser qp orig t =
      (.error (.tokenExchange (LinkedIn.parseRedirectError qp)), []) ∧
    LinkedIn.getUser qp orig t = LinkedIn.getUser qp orig t2 ∧
    Threads.getUser qp orig u =
      (.error (.tokenExchange (Threads.parseRedirectError qp)), []) ∧
    Threads.getUser qp orig u = Threads.getUser qp orig u2 ∧
    (jsOptTruthy qp.error_description = false →
      LinkedIn.parseRedirectError qp = "Oauth failed during redirect") ∧
    (∀ s, qp.error_description = some s → s ≠ "" →
      LinkedIn.parseRedirectError qp = s) ∧
    (jsOptTruthy qp.error = false →
      Threads.parseRedirectError qp = "Oauth failed during redirect") ∧
    (∀ s, qp.error = some s → s ≠ "" → Threads.parseRedirectError qp = s) := by
  refine ⟨linkedInGetUserMissingCode qp orig t hcode,
    (linkedInGetUserMissingCode qp orig t hcode).trans
      (linkedInGetUserMissingCode qp orig t2 hcode).symm,
    threadsGetUserMissingCode qp orig u hcode,
    (threadsGetUserMissingCode qp orig u hcode).trans
      (threadsGetUserMissingCode qp orig u2 hcode).symm, ?_, ?_, ?_, ?_⟩
  · intro h
    rcases he : qp.error_description with _ | s
    · simp [LinkedIn.parseRedirectError, he]
    · have hse : s = "" := by
        by_contra hne
        simp [jsOptTruthy, he, hne] at h
      simp [LinkedIn.parseRedirectError, he, hse]
  · intro s hs hne
    simp [LinkedIn.parseRedirectError, hs, hne]
  · intro h
    rcases he : qp.error with _ | s
    · simp [Threads.parseRedirectError, he]
    · have hse : s = "" := by
        by_contra hne
        simp [jsOptTruthy, he, hne] at h
      simp [Threads.parseRedirectError, he, hse]
  · intro s hs hne
    simp [Threads.parseRedirectError, hs, hne]

/-- C2, witness: the amended theorem applied at a concrete codeless
callback carrying both provider error fields, showing each driver
surfaces its own field as the message with an empty trace. -/
theorem claim2_missing_code_token_error_witness :
    LinkedIn.getUser
      { code := none, state := none, error := some "access_denied",
        error_description := some "user denied" }
      none liTransportOk =
        (.error (.tokenExchange "user denied"), []) ∧
    Threads.getUser
      { code := none, state := none, error := some "access_denied",
        error_description := some "user denied" }
      none thTransportOk =
        (.error (.tokenExchange "access_denied"), []) := by
  have h := claim2_missing_code_token_error
    { code := none, state := none, error := some "access_denied",
      error_description := some "user denied" }
    none liTransportOk liTransportOk thTransportOk thTransportOk (by decide)
  exact ⟨h.1, h.2.2.1⟩

/-- C3, counterexample: a callback with a valid code and an empty-string
state parameter, differing from the caller-supplied original state,
does not fail with the invalid-state error; the exchange and the
profile and email fetches are all performed. -/
theorem claim3_counterexample :
    (LinkedIn.getUser
      { code := some "c", state := some "", error := none, error_description := none }
      (some "s") liTransportOk).2 =
      [.tokenExchange "c", .profileFetch "T", .emailFetch "T"] ∧
    (LinkedIn.getUser
      { code := some "c", state := some "", error := none, error_description := none }
      (some "s") liTransportOk).1 ≠ .error .invalidState := by
  refine ⟨rfl, fun h => ?_⟩
  exact Except.noConfusion h

/-- C3, amended: for every callback input containing a valid code and a
non-empty state parameter that differs from the caller-supplied
original state, getUser fails with the invalid-state error and the
trace is empty, so the failure occurs before the code-for-token
exchange; and whenever the code is absent or empty the missing-code
check wins, so it precedes the state check, which precedes the
exchange. Stated for the LinkedIn and Threads drivers. -/
theorem claim3_invalid_state_before_exchange
    (qp : CallbackParams) (orig : Option String)
    (t : LinkedIn.Transport) (u : Threads.Transport) :
    (∀ c, qp.code = some c → c ≠ "" → jsOptTruthy qp.state = true →
      orig ≠ qp.state →
      LinkedIn.getUser qp orig t = (.error .invalidState, []) ∧
      Threads.getUser qp orig u = (.error .invalidState, [])) ∧
    (jsOptTruthy qp.code = false →
      (LinkedIn.getUser qp orig t).1 =
        .error (.tokenExchange (LinkedIn.parseRedirectError qp)) ∧
      (Threads.getUser qp orig u).1 =
        .error (.tokenExchange (Threads.parseRedirectError qp))) := by
  constructor
  · intro c hcode hc hst hne
    have hs : stateCheckFails qp.state orig = true :=
      (stateCheckFails_iff qp.state orig).mpr ⟨hst, hne⟩
    constructor
    · simp [LinkedIn.getUser, hcode, hc, hs]
    · simp [Threads.getUser, hcode, hc, hs]
  · intro h
    exact ⟨by rw [linkedInGetUserMissingCode qp orig t h],
      by rw [threadsGetUserMissingCode qp orig u h]⟩

/-- C3, witness: the amended theorem applied at a concrete callback
with a valid code and a mismatched non-empty state. -/
theorem claim3_invalid_state_before_exchange_witness :
    LinkedIn.getUser
      { code := some "c", state := some "x", error := none, error_description := none }
      (some "s") liTransportOk = (.error .invalidState, []) ∧
    Threads.getUser
      { code := some "c", state := some "x", error := none, error_description := none }
      (some "s") thTransportOk = (.error .invalidState, []) :=
  (claim3_invalid_state_before_exchange
    { code := some "c", state := some "x", error := none, error_description := none }
    (some "s") liTransportOk thTransportOk).1
    "c" rfl (by decide) (by decide) (by decide)

/-- C4: every successful Threads getUser call performs the chain of
code-for-token exchange, exchange of the short-lived token for a
long-lived token, and profile fetch authenticated with the long-lived
access token; the user is built from the long-lived token record, so
its token bundle carries the long-lived access token. -/
theorem claim4_long_lived_chain
    (qp : CallbackParams) (orig : Option String) (t : Threads.Transport)
    (c : String) (hcode : qp.code = some c) (hc : c ≠ "")
    (hs : stateCheckFails qp.state orig = false) :
    Threads.getUser qp orig t =
      (.ok (Threads.buildAllyUser
        (t.getUserProfile
          (Threads.exchangeForLongLivedToken t (t.getAccessToken c).accessToken).accessToken)
        (Threads.exchangeForLongLivedToken t (t.getAccessToken c).accessToken)),
       [.tokenExchange c,
        .longLivedExchange (t.getAccessToken c).accessToken,
        .profileFetch
          (Threads.exchangeForLongLivedToken t (t.getAccessToken c).accessToken).accessToken]) ∧
    (Threads.buildAllyUser
        (t.getUserProfile
          (Threads.exchangeForLongLivedToken t (t.getAccessToken c).accessToken).accessToken)
        (Threads.exchangeForLongLivedToken t (t.getAccessToken c).accessToken)).token.accessToken
      = some (Threads.exchangeForLongLivedToken t (t.getAccessToken c).accessToken).accessToken := by
  constructor
  · simp [Threads.getUser, hcode, hc, hs]
  · simp [Threads.buildAllyUser]

/-- C4, witness: the theorem applied at a concrete callback against the
concrete Threads transport, on which the code exchange yields the
short-lived token SHORT, the secondary exchange yields LONG, the
profile fetch is keyed by LONG, and the returned token bundle carries
LONG, which differs from SHORT. -/
theorem claim4_long_lived_chain_witness :
    Threads.getUser
      { code := some "c", state := none, error := none, error_description := none }
      none thTransportOk =
      (.ok (Threads.buildAllyUser (thTransportOk.getUserProfile "LONG")
        { accessToken := "LONG", expiresIn := some 5184000,
          expiresAt := some 5184000000, tokenType := some "bearer" }),
       [.tokenExchange "c", .longLivedExchange "SHORT", .profileFetch "LONG"]) ∧
    (Threads.buildAllyUser (thTransportOk.getUserProfile "LONG")
      { accessToken := "LONG", expiresIn := some 5184000,
        expiresAt := some 5184000000, tokenType := some "bearer" }).token.accessToken
      = some "LONG" :=
  claim4_long_lived_chain
    { code := some "c", state := none, error := none, error_description := none }
    none thTransportOk "c" rfl (by decide) (by decide)

/-- C5: the should-refresh predicate returns true exactly when the
expiry is strictly in the future and at most 24 hours away, both times
in milliseconds. -/
theorem claim5_should_refresh_iff (expiresAt now : Int) :
    Threads.shouldRefreshToken expiresAt now = true ↔
      now < expiresAt ∧ expiresAt ≤ now + 24 * 60 * 60 * 1000 := by
  simp only [Threads.shouldRefreshToken, Bool.and_eq_true, decide_eq_true_eq]
  omega

/-- C6, counterexample: a LinkedIn profile whose optional firstName
object is missing, while the mandatory id is present and the email
resource is intact, makes the mapping fail with a raw type error, where
the claim says a missing optional name must yield an absent value
rather than a failure, and that the only hard error is a
ProfileMappingError for a missing mandatory identity field. -/
theorem claim6_counterexample :
    liProfileNoFirst.firstName = none ∧
    liProfileNoFirst.id = some "42" ∧
    LinkedIn.buildAllyUser liProfileNoFirst (some liEmailOk) liTokenOk = .error .typeError :=
  ⟨rfl, rfl, rfl⟩

/-- C6, amended: the LinkedIn mapping is a pure transform that tolerates
missing optional leaf values (a missing email entry, refresh token or
expiry, and even a missing id, flow through as absent values), but a
missing intermediate object - the firstName object, or the email
resource or its elements, and symmetrically lastName and the localized
tables - makes it fail with a raw type error; no ProfileMappingError
exists in the code, and a missing id or access token is not detected as
an error. -/
theorem claim6_mapping_tolerance
    :
    (∀ (p : LinkedIn.Profile) (e : LinkedIn.EmailResource) (r : LinkedIn.TokenResp)
       (els : List LinkedIn.EmailElement),
      e.elements = some els → p.firstName = none →
      LinkedIn.buildAllyUser p (some e) r = .error .typeError) ∧
    (∀ (idv : Option String) (fl ll : List (String × String))
       (els : List LinkedIn.EmailElement) (r : LinkedIn.TokenResp),
      (LinkedIn.buildAllyUser
        { id := idv, firstName := some { localized := some fl },
          lastName := some { localized := some ll } }
        (some { elements := some els }) r).isOk = true) ∧
    (∀ (p : LinkedIn.Profile) (r : LinkedIn.TokenResp),
      LinkedIn.buildAllyUser p none r = .error .typeError) := by
  refine ⟨?_, ?_, ?_⟩
  · intro p e r els he hf
    simp [LinkedIn.buildAllyUser, he, hf]
  · intro idv fl ll els r
    rfl
  · intro p r
    rfl

/-- C6, witness: the amended theorem applied at the concrete profile
with a missing firstName object and an intact email resource. -/
theorem claim6_mapping_tolerance_witness :
    LinkedIn.buildAllyUser liProfileNoFirst (some liEmailOk) liTokenOk = .error .typeError :=
  claim6_mapping_tolerance.1 liProfileNoFirst liEmailOk liTokenOk
    [{ type := "EMAIL", handle := some { emailAddress := some "alice@example.com" } }]
    rfl rfl

/-- C7: LinkedIn getUserByToken performs exactly one HTTP call, the
profile fetch with the given token (no code exchange, no state check),
and then always fails with a raw type error, because the user build
dereferences the email resource that getUserByToken passes as null; it
therefore never produces the normalized user the claim describes. -/
theorem claim7_get_user_by_token_crashes (tok : String) (t : LinkedIn.Transport) :
    LinkedIn.getUserByToken tok t = (.error .typeError, [.profileFetch tok]) := rfl

/-- C8, counterexample: calling the LinkedIn getRedirectUrl with a
state mutates the stored redirect options (state appears in them though
it was absent before the call), and a later call without a state leaks
the earlier per-call state into its URL. -/
theorem claim8_counterexample :
    (LinkedIn.getRedirectUrl cfgFix (some "s1") optsFix).2 "state" = some "s1" ∧
    optsFix "state" = none ∧
    (LinkedIn.getRedirectUrl cfgFix none
       (LinkedIn.getRedirectUrl cfgFix (some "s1") optsFix).2).1.params "state" = some "s1" :=
  ⟨rfl, rfl, rfl⟩

/-- C8, amended: getRedirectUrl with a non-empty state argument mutates
the stored redirect options in place by inserting the state, and the
inserted value persists, so a later call without a state carries the
earlier state in its URL; calls with an absent or empty state leave the
options unchanged, and two consecutive calls with identical arguments
produce identical URLs and options. Stated for the LinkedIn driver. -/
theorem claim8_options_mutation (cfg : DriverConfig) (opts : Opts)
    (s : String) (hs : s ≠ "") :
    (LinkedIn.getRedirectUrl cfg (some s) opts).2 = updMap opts "state" s ∧
    (LinkedIn.getRedirectUrl cfg none (updMap opts "state" s)).1.params "state" = some s ∧
    (LinkedIn.getRedirectUrl cfg none opts).2 = opts ∧
    (LinkedIn.getRedirectUrl cfg (some "") opts).2 = opts ∧
    LinkedIn.getRedirectUrl cfg (some s) ((LinkedIn.getRedirectUrl cfg (some s) opts).2) =
      LinkedIn.getRedirectUrl cfg (some s) opts ∧
    LinkedIn.getRedirectUrl cfg none ((LinkedIn.getRedirectUrl cfg none opts).2) =
      LinkedIn.getRedirectUrl cfg none opts := by
  refine ⟨?_, ?_, rfl, rfl, ?_, rfl⟩
  · simp [LinkedIn.getRedirectUrl, hs]
  · simp [LinkedIn.getRedirectUrl, LinkedIn.mkUrl, getUrl, updMap]
  · simp [LinkedIn.getRedirectUrl, hs, updMap_idem]

/-- C8, witness: the amended theorem applied at the concrete fresh
driver options with state s1. -/
theorem claim8_options_mutation_witness :
    (LinkedIn.getRedirectUrl cfgFix (some "s1") optsFix).2 = updMap optsFix "state" "s1" ∧
    (LinkedIn.getRedirectUrl cfgFix none
       (updMap optsFix "state" "s1")).1.params "state" = some "s1" := by
  have h := claim8_options_mutation cfgFix optsFix "s1" (by decide)
  exact ⟨h.1, h.2.1⟩

/-- C9, counterexample: the empty string supplied as the state value to
the LinkedIn getRedirectUrl is treated as absent, so the produced URL
carries no state parameter at all rather than a state parameter equal
to the supplied value. -/
theorem claim9_counterexample :
    ¬ ((LinkedIn.getRedirectUrl cfgFix (some "") optsFix).1.params "state" = some "") :=
  fun h => Option.noConfusion h

/-- C9, amended: for every non-empty state value supplied to
getRedirectUrl, the produced redirect URL contains a state query
parameter exactly equal to the supplied value (LinkedIn, TikTok and
Threads drivers), and that value passes the getUser state validation
check against itself on callback; an empty-string state is treated as
absent. -/
theorem claim9_state_verbatim (cfg : DriverConfig) (opts : Opts)
    (s : String) (hs : s ≠ "") :
    (LinkedIn.getRedirectUrl cfg (some s) opts).1.params "state" = some s ∧
    (TikTok.getRedirectUrl cfg (some s) opts).1.params "state" = some s ∧
    (Threads.getRedirectUrl cfg (some s) opts).1.params "state" = some s ∧
    stateCheckFails (some s) (some s) = false := by
  refine ⟨?_, ?_, ?_, ?_⟩
  · simp [LinkedIn.getRedirectUrl, hs, LinkedIn.mkUrl, getUrl, updMap]
  · simp [TikTok.getRedirectUrl, hs, TikTok.mkUrl, getUrl, updMap]
  · simp [Threads.getRedirectUrl, hs, Threads.mkUrl, getUrl, updMap]
  · simp [stateCheckFails]

/-- C9, witness: the amended theorem applied at the concrete fresh
driver options with state s1. -/
theorem claim9_state_verbatim_witness :
    (LinkedIn.getRedirectUrl cfgFix (some "s1") optsFix).1.params "state" = some "s1" ∧
    (TikTok.getRedirectUrl cfgFix (some "s1") optsFix).1.params "state" = some "s1" ∧
    (Threads.getRedirectUrl cfgFix (some "s1") optsFix).1.params "state" = some "s1" ∧
    stateCheckFails (some "s1") (some "s1") = false :=
  claim9_state_verbatim cfgFix optsFix "s1" (by decide)

/-- C10, counterexample: after an earlier TikTok getRedirectUrl call
that supplied a state, a call without a state still produces a URL
whose options contain both client_key and the earlier state, because
the earlier call merged them into the stored options in place. -/
theorem claim10_counterexample :
    (TikTok.getRedirectUrl cfgFix none
       (TikTok.getRedirectUrl cfgFix (some "s1") optsFix).2).1.params "client_key" = some "CID" ∧
    (TikTok.getRedirectUrl cfgFix none
       (TikTok.getRedirectUrl cfgFix (some "s1") optsFix).2).1.params "state" = some "s1" :=
  ⟨rfl, rfl⟩

/-- C10, amended: the TikTok and Threads getRedirectUrl merge client_key
(set to the configured clientId) together with the state exactly in
calls that supply a non-empty state; a call with an absent or empty
state performs no merge, so on options that do not already contain the
two keys, as at construction, it produces a URL whose options contain
neither state nor client_key - but the merge performed by a stateful
call persists in the stored options. -/
theorem claim10_client_key_merge (cfg : DriverConfig) (opts : Opts)
    (h1 : opts "state" = none) (h2 : opts "client_key" = none) :
    (TikTok.getRedirectUrl cfg none opts).1.params "state" = none ∧
    (TikTok.getRedirectUrl cfg none opts).1.params "client_key" = none ∧
    (TikTok.getRedirectUrl cfg (some "") opts).2 = opts ∧
    (Threads.getRedirectUrl cfg none opts).1.params "state" = none ∧
    (Threads.getRedirectUrl cfg none opts).1.params "client_key" = none ∧
    (Threads.getRedirectUrl cfg (some "") opts).2 = opts ∧
    (∀ s, s ≠ "" →
      (TikTok.getRedirectUrl cfg (some s) opts).1.params "client_key" = some cfg.clientId ∧
      (TikTok.getRedirectUrl cfg (some s) opts).2 =
        updMap (updMap opts "state" s) "client_key" cfg.clientId ∧
      (Threads.getRedirectUrl cfg (some s) opts).1.params "client_key" = some cfg.clientId ∧
      (Threads.getRedirectUrl cfg (some s) opts).2 =
        updMap (updMap opts "state" s) "client_key" cfg.clientId) := by
  refine ⟨?_, ?_, rfl, ?_, ?_, rfl, ?_⟩
  · simp [TikTok.getRedirectUrl, TikTok.mkUrl, getUrl, oauthDefaults, h1]
  · simp [TikTok.getRedirectUrl, TikTok.mkUrl, getUrl, oauthDefaults, h2]
  · simp [Threads.getRedirectUrl, Threads.mkUrl, getUrl, oauthDefaults, h1]
  · simp [Threads.getRedirectUrl, Threads.mkUrl, getUrl, oauthDefaults, h2]
  · intro s hs
    refine ⟨?_, ?_, ?_, ?_⟩
    · simp [TikTok.getRedirectUrl, hs, TikTok.mkUrl, getUrl, updMap]
    · simp [TikTok.getRedirectUrl, hs]
    · simp [Threads.getRedirectUrl, hs, Threads.mkUrl, getUrl, updMap]
    · simp [Threads.getRedirectUrl, hs]

/-- C10, witness: the amended theorem applied at the concrete fresh
driver options: a no-state call on them yields a URL with neither key,
while a call with state s1 merges client_key. -/
theorem claim10_client_key_merge_witness :
    (TikTok.getRedirectUrl cfgFix none optsFix).1.params "state" = none ∧
    (TikTok.getRedirectUrl cfgFix none optsFix).1.params "client_key" = none ∧
    (TikTok.getRedirectUrl cfgFix (some "s1") optsFix).1.params "client_key" = some "CID" := by
  have h := claim10_client_key_merge cfgFix optsFix rfl rfl
  exact ⟨h.1, h.2.1, (h.2.2.2.2.2.2 "s1" (by decide)).1⟩
